import Mathlib

/-!
Verification of the cylindrical panorama viewer's projection and state
subsystem: angle normalization (`toRange` from `src/util.ts`), the geometry
solver (`calculateSceneParameters`), the rotation controllers
(`SimpleController`, `MouseController` from `src/controller.ts`), the label
projector's visibility gate, and the image-load lifecycle of
`PanoramaViewer`.  JavaScript numbers are modelled as real numbers; the JS
`%` operator is modelled as the remainder after truncated division.
-/

open Real

noncomputable section

/-- Rounding toward zero, as performed by the JavaScript `%` operator on the
quotient: floor for non-negative arguments, ceiling for negative ones. -/
def jsTrunc (x : ℝ) : ℝ := if 0 ≤ x then (⌊x⌋ : ℝ) else (⌈x⌉ : ℝ)

/-- The JavaScript remainder `x % y`, a truncated (sign-of-dividend)
remainder: `x - y * trunc (x / y)`. -/
def jsMod (x y : ℝ) : ℝ := x - y * jsTrunc (x / y)

/-- `toRange` from `src/util.ts`: maps an angle in radians into `(-π, π]` by
`a = (value % 2π + 2π) % 2π`, then subtracting `2π` when `a > π`. -/
def toRange (value : ℝ) : ℝ :=
  let a := jsMod (jsMod value (2 * π) + 2 * π) (2 * π)
  if a > π then a - 2 * π else a

/-- `DEFAULT_H` from `src/index.ts`: the fixed unit cylinder height. -/
def DEFAULT_H : ℝ := 1

/-- `DEFAULT_FOV` from `src/index.ts`: `degToRad 55`. -/
def DEFAULT_FOV : ℝ := 55 * π / 180

/-- The geometric outputs of `PanoramaViewer.calculateSceneParameters`. -/
structure SceneParameters where
  horizontalFov : ℝ
  cylinderHeight : ℝ
  cylinderRadius : ℝ
  cameraRadius : ℝ

/-- The local `distortion` of `calculateSceneParameters`:
`1 + (this.distortion - 1) / aspectRatio / aspectRatio`. -/
def distortionPrime (distortion aspectRatio : ℝ) : ℝ :=
  1 + (distortion - 1) / aspectRatio / aspectRatio

/-- The local `diff` of `calculateSceneParameters`: `H / 2 / tan (fov / 2)`. -/
def diffOf (fov : ℝ) : ℝ := DEFAULT_H / 2 / Real.tan (fov / 2)

/-- The local `d` of `calculateSceneParameters`: `diff * (1 - 1 / distortion)`. -/
def dOf (fov aspectRatio distortion : ℝ) : ℝ :=
  diffOf fov * (1 - 1 / distortionPrime distortion aspectRatio)

/-- The local `R` of `calculateSceneParameters`:
`(d * d + (H / 2 / distortion / aspectRatio)^2) / (2 * d)`. -/
def cylinderRadiusOf (fov aspectRatio distortion : ℝ) : ℝ :=
  (dOf fov aspectRatio distortion * dOf fov aspectRatio distortion +
      (DEFAULT_H / 2 / distortionPrime distortion aspectRatio / aspectRatio) ^ 2) /
    (2 * dOf fov aspectRatio distortion)

/-- The local `r` of `calculateSceneParameters`: `R - diff`. -/
def cameraRadiusOf (fov aspectRatio distortion : ℝ) : ℝ :=
  cylinderRadiusOf fov aspectRatio distortion - diffOf fov

/-- `this.horizontalFov` as set by `calculateSceneParameters`:
`2 * atan (tan (fov / 2) * aspectRatio)`. -/
def horizontalFovOf (fov aspectRatio : ℝ) : ℝ :=
  2 * Real.arctan (Real.tan (fov / 2) * aspectRatio)

/-- `PanoramaViewer.calculateSceneParameters` bundled as a pure function of
the vertical FOV, aspect ratio, and distortion coefficient. -/
def calculateSceneParameters (fov aspectRatio distortion : ℝ) : SceneParameters where
  horizontalFov := horizontalFovOf fov aspectRatio
  cylinderHeight := DEFAULT_H
  cylinderRadius := cylinderRadiusOf fov aspectRatio distortion
  cameraRadius := cameraRadiusOf fov aspectRatio distortion

/-- The mutable state of `MouseController` from `src/controller.ts`. -/
structure MouseController where
  isMouseEnabled : Bool
  longitude : ℝ
  mouseSpeed : ℝ
  isPressed : Bool
  prevPosition : Option ℝ

/-- The `longitude` setter of `MouseController`: normalizes on every set. -/
def MouseController.setLongitude (s : MouseController) (value : ℝ) : MouseController :=
  { s with longitude := toRange value }

/-- `MouseController.onMouseDown`: mark pressed and record the pointer x. -/
def MouseController.onMouseDown (s : MouseController) (clientX : ℝ) : MouseController :=
  { s with isPressed := true, prevPosition := some clientX }

/-- `MouseController.onMouseUp`: mark released and clear the recorded x. -/
def MouseController.onMouseUp (s : MouseController) : MouseController :=
  { s with isPressed := false, prevPosition := none }

/-- `MouseController.onMouseMove`: while pressed, run
`longitude -= (clientX - prevPosition) * mouseSpeed` through the normalizing
setter, re-normalize, and record the new x; otherwise do nothing.  A `null`
`prevPosition` coerces to `0` as in JavaScript arithmetic. -/
def MouseController.onMouseMove (s : MouseController) (clientX : ℝ) : MouseController :=
  if s.isPressed then
    let s1 := s.setLongitude (s.longitude - (clientX - s.prevPosition.getD 0) * s.mouseSpeed)
    let s2 := s1.setLongitude (toRange s1.longitude)
    { s2 with prevPosition := some clientX }
  else s

/-- A pointer event delivered to the controller's root element. -/
inductive PointerEvent where
  | down (clientX : ℝ)
  | up
  | move (clientX : ℝ)

/-- Route one pointer event to the matching `MouseController` handler. -/
def MouseController.handleEvent (s : MouseController) : PointerEvent → MouseController
  | .down x => s.onMouseDown x
  | .up => s.onMouseUp
  | .move x => s.onMouseMove x

/-- Event delivery: the handlers are registered as listeners exactly while
`isMouseEnabled` is true (the `isMouseEnabled` setter adds or removes them),
so a dispatched event reaches the handler only when enabled. -/
def MouseController.dispatchEvent (s : MouseController) (e : PointerEvent) : MouseController :=
  if s.isMouseEnabled then s.handleEvent e else s

/-- The `isMouseEnabled` setter of `MouseController`: stores the flag and
attaches or detaches the listeners; it touches no other field. -/
def MouseController.setIsMouseEnabled (s : MouseController) (value : Bool) : MouseController :=
  { s with isMouseEnabled := value }

/-- `SimpleController` from `src/controller.ts`: a bare public `longitude`
field with no accessors. -/
structure SimpleController where
  longitude : ℝ

/-- Assignment to `SimpleController.longitude` is a plain public-field write
(the class declares no setter). -/
def SimpleController.assignLongitude (_s : SimpleController) (value : ℝ) : SimpleController :=
  { longitude := value }

/-- A label's data relevant to projection: `position.x` in `[0,1)` and
`position.y` in `[-1,1]` (`src/label.ts`). -/
structure Label where
  angularX : ℝ
  verticalY : ℝ

/-- External DOM/image dimensions read by `PanoramaViewer.update`. -/
structure Env where
  width : ℝ
  height : ℝ
  imageWidth : ℝ
  imageHeight : ℝ

/-- The state of `PanoramaViewer` (`src/index.ts`) visible to the claims. -/
structure ViewerState where
  longitude : ℝ
  labels : List Label
  isAnimating : Bool
  isLoadingImage : Bool
  distortion : ℝ
  aspectRatio : ℝ
  horizontalFov : ℝ
  cylinderRadius : ℝ
  cylinderHeight : ℝ
  cameraRadius : ℝ
  repeatCount : ℝ

/-- `PanoramaViewer.startAnimationLoop`: sets the animating flag. -/
def ViewerState.startAnimationLoop (s : ViewerState) : ViewerState :=
  { s with isAnimating := true }

/-- `PanoramaViewer.stopAnimationLoop`: clears the animating flag. -/
def ViewerState.stopAnimationLoop (s : ViewerState) : ViewerState :=
  { s with isAnimating := false }

/-- `PanoramaViewer.clearLabels`: empties the label list (and its DOM
mirror). -/
def ViewerState.clearLabels (s : ViewerState) : ViewerState :=
  { s with labels := [] }

/-- `PanoramaViewer.addLabels`: appends the given labels to the list. -/
def ViewerState.addLabels (s : ViewerState) (ls : List Label) : ViewerState :=
  { s with labels := s.labels ++ ls }

/-- `PanoramaViewer.setLongitude`: `controller.longitude = toRange l`, where
the `MouseController` setter normalizes once more. -/
def ViewerState.setViewerLongitude (s : ViewerState) (l : ℝ) : ViewerState :=
  { s with longitude := toRange (toRange l) }

/-- `PanoramaViewer.update`: recompute the aspect ratio from the parent
element, the scene parameters from `calculateSceneParameters`, and the
texture repeat count `2π·R / H / imageWidth · imageHeight`. -/
def ViewerState.update (env : Env) (s : ViewerState) : ViewerState :=
  let aspectRatio := env.width / env.height
  let p := calculateSceneParameters DEFAULT_FOV aspectRatio s.distortion
  { s with
    aspectRatio := aspectRatio
    horizontalFov := p.horizontalFov
    cylinderHeight := p.cylinderHeight
    cylinderRadius := p.cylinderRadius
    cameraRadius := p.cameraRadius
    repeatCount :=
      2 * π * p.cylinderRadius / p.cylinderHeight / env.imageWidth * env.imageHeight }

/-- `PanoramaViewer.onTextureLoaded`: store the texture, assign the
controller longitude (normalized by the `MouseController` setter), run
`update`, and call `startAnimationLoop` unconditionally. -/
def ViewerState.onTextureLoaded (env : Env) (s : ViewerState) (initialLongitude : ℝ) :
    ViewerState :=
  (ViewerState.update env { s with longitude := toRange initialLongitude }).startAnimationLoop

/-- `PanoramaViewer.loadImage`: set the loading flag, save the animating
flag, stop the loop, and hand the loader a success callback (no error
callback is registered).  When the load succeeds the callback runs
`onTextureLoaded`, `clearLabels`, `addLabels newLabels`, conditionally
restarts the loop from the saved flag, and clears the loading flag; when the
load fails nothing further ever runs. -/
def ViewerState.loadImage (env : Env) (s : ViewerState) (initialLongitude : ℝ)
    (newLabels : List Label) (loadSucceeds : Bool) : ViewerState :=
  let saved := s.isAnimating
  let s1 := ViewerState.stopAnimationLoop { s with isLoadingImage := true }
  if loadSucceeds then
    let s2 := ViewerState.onTextureLoaded env s1 initialLongitude
    let s3 := ViewerState.addLabels s2.clearLabels newLabels
    let s4 := if saved then s3.startAnimationLoop else s3
    { s4 with isLoadingImage := false }
  else s1

/-- `PanoramaViewer.setImage` simply delegates to `loadImage`. -/
def ViewerState.setImage (env : Env) (s : ViewerState) (initialLongitude : ℝ)
    (newLabels : List Label) (loadSucceeds : Bool) : ViewerState :=
  ViewerState.loadImage env s initialLongitude newLabels loadSucceeds

/-- The `delta` of `PanoramaViewer.updateLabelPositions`:
`toRange (position.x * 2π - toRange longitude)`. -/
def labelDelta (s : ViewerState) (lab : Label) : ℝ :=
  toRange (lab.angularX * (2 * π) - toRange s.longitude)

open Classical in
/-- The visibility decision of `updateLabelPositions`: the element's display
is set to `none` when `|delta| > horizontalFov / 2`, else to `block`
(`true` models `block`, i.e. visible). -/
def labelDisplayBlock (s : ViewerState) (lab : Label) : Bool :=
  if |labelDelta s lab| > s.horizontalFov / 2 then false else true

end

/-- `jsTrunc` always returns (the cast of) an integer. -/
theorem jsTrunc_eq_int (x : ℝ) : ∃ n : ℤ, jsTrunc x = (n : ℝ) := by
  unfold jsTrunc
  split
  · exact ⟨⌊x⌋, rfl⟩
  · exact ⟨⌈x⌉, rfl⟩

/-- `jsMod x y` differs from `x` by an integer multiple of `y`. -/
theorem jsMod_eq_sub_int_mul (x y : ℝ) : ∃ n : ℤ, jsMod x y = x - y * (n : ℝ) := by
  obtain ⟨n, hn⟩ := jsTrunc_eq_int (x / y)
  exact ⟨n, by rw [jsMod, hn]⟩

/-- For a non-negative dividend and positive divisor, the JS remainder lies
in `[0, y)`. -/
theorem jsMod_nonneg_lt (x y : ℝ) (hx : 0 ≤ x) (hy : 0 < y) :
    0 ≤ jsMod x y ∧ jsMod x y < y := by
  have htr : jsTrunc (x / y) = (⌊x / y⌋ : ℝ) := by
    unfold jsTrunc
    rw [if_pos (div_nonneg hx hy.le)]
  have hxy : y * (x / y) = x := by field_simp
  have h1 : (⌊x / y⌋ : ℝ) ≤ x / y := Int.floor_le _
  have h2 : x / y < (⌊x / y⌋ : ℝ) + 1 := Int.lt_floor_add_one _
  unfold jsMod
  rw [htr]
  constructor
  · nlinarith [mul_le_mul_of_nonneg_left h1 hy.le]
  · nlinarith [mul_lt_mul_of_pos_left h2 hy]

/-- For a negative dividend and positive divisor, the JS remainder lies in
`(-y, 0]`. -/
theorem jsMod_neg_bounds (x y : ℝ) (hx : x < 0) (hy : 0 < y) :
    -y < jsMod x y ∧ jsMod x y ≤ 0 := by
  have htr : jsTrunc (x / y) = (⌈x / y⌉ : ℝ) := by
    unfold jsTrunc
    rw [if_neg (by push_neg; exact div_neg_of_neg_of_pos hx hy)]
  have hxy : y * (x / y) = x := by field_simp
  have h1 : x / y ≤ (⌈x / y⌉ : ℝ) := Int.le_ceil _
  have h2 : (⌈x / y⌉ : ℝ) < x / y + 1 := Int.ceil_lt_add_one _
  unfold jsMod
  rw [htr]
  constructor
  · nlinarith [mul_lt_mul_of_pos_left h2 hy]
  · nlinarith [mul_le_mul_of_nonneg_left h1 hy.le]

/-- For any dividend and positive divisor, the JS remainder lies strictly
between `-y` and `y`. -/
theorem jsMod_bounds (x y : ℝ) (hy : 0 < y) : -y < jsMod x y ∧ jsMod x y < y := by
  rcases le_or_lt 0 x with hx | hx
  · obtain ⟨h1, h2⟩ := jsMod_nonneg_lt x y hx hy
    exact ⟨by linarith, h2⟩
  · obtain ⟨h1, h2⟩ := jsMod_neg_bounds x y hx hy
    exact ⟨h1, by linarith⟩

/-- `toRange` changes its argument by an integer multiple of `2π`. -/
theorem toRange_eq_add_int_mul (x : ℝ) : ∃ n : ℤ, toRange x = x + 2 * π * (n : ℝ) := by
  obtain ⟨a, ha⟩ := jsMod_eq_sub_int_mul x (2 * π)
  obtain ⟨b, hb⟩ := jsMod_eq_sub_int_mul (jsMod x (2 * π) + 2 * π) (2 * π)
  simp only [toRange]
  split
  · exact ⟨-a - b, by rw [hb, ha]; push_cast; ring⟩
  · exact ⟨1 - a - b, by rw [hb, ha]; push_cast; ring⟩

/-- `toRange` lands in the canonical interval `(-π, π]`. -/
theorem toRange_mem_Ioc (x : ℝ) : toRange x ∈ Set.Ioc (-π) π := by
  have h2pi : (0 : ℝ) < 2 * π := by positivity
  obtain ⟨h1, h2⟩ := jsMod_bounds x (2 * π) h2pi
  obtain ⟨hA1, hA2⟩ :=
    jsMod_nonneg_lt (jsMod x (2 * π) + 2 * π) (2 * π) (by linarith) h2pi
  have hpi := pi_pos
  simp only [toRange, Set.mem_Ioc]
  split
  · constructor <;> linarith
  · constructor <;> linarith

/-- Any value of `(-π, π]` congruent to `x` modulo `2π` is exactly
`toRange x`. -/
theorem toRange_unique {x y : ℝ} (hy : y ∈ Set.Ioc (-π) π) (n : ℤ)
    (hxy : y = x + 2 * π * (n : ℝ)) : toRange x = y := by
  obtain ⟨m, hm⟩ := toRange_eq_add_int_mul x
  obtain ⟨hmem1, hmem2⟩ := toRange_mem_Ioc x
  rw [Set.mem_Ioc] at hy
  have hpi := pi_pos
  have hdiff : toRange x - y = 2 * π * ((m - n : ℤ) : ℝ) := by
    rw [hm, hxy]; push_cast; ring
  have hb1 : -(2 * π) < 2 * π * ((m - n : ℤ) : ℝ) := by
    rw [← hdiff]; linarith [hy.1, hy.2]
  have hb2 : 2 * π * ((m - n : ℤ) : ℝ) < 2 * π := by
    rw [← hdiff]; linarith [hy.1, hy.2]
  have hc1 : (-1 : ℝ) < ((m - n : ℤ) : ℝ) := by nlinarith
  have hc2 : ((m - n : ℤ) : ℝ) < 1 := by nlinarith
  have hz : m - n = 0 := by
    have hczl : (-1 : ℤ) < m - n := by exact_mod_cast hc1
    have hczr : m - n < 1 := by exact_mod_cast hc2
    omega
  have hmn : m = n := by omega
  rw [hm, hxy, hmn]

/-- `toRange` fixes every point of `(-π, π]`. -/
theorem toRange_eq_self {x : ℝ} (h : x ∈ Set.Ioc (-π) π) : toRange x = x :=
  toRange_unique h 0 (by push_cast; ring)

/-- `toRange` is idempotent. -/
theorem toRange_idem (x : ℝ) : toRange (toRange x) = toRange x :=
  toRange_eq_self (toRange_mem_Ioc x)

/-- `toRange` is `2π`-periodic. -/
theorem toRange_add_int_mul (x : ℝ) (n : ℤ) :
    toRange (x + 2 * π * (n : ℝ)) = toRange x := by
  obtain ⟨m, hm⟩ := toRange_eq_add_int_mul x
  exact toRange_unique (toRange_mem_Ioc x) (m - n) (by rw [hm]; push_cast; ring)

/-- A convenient membership fact: `1/50` lies in the canonical range. -/
theorem one_div_fifty_mem_Ioc : (1/50 : ℝ) ∈ Set.Ioc (-π) π := by
  have h3 := pi_gt_three
  exact ⟨by linarith, by linarith⟩

/-- With the controller enabled, a pointer-down at `x1` followed by a
pointer-move at `x2` sets the longitude to
`toRange (longitude + (x1 - x2) * mouseSpeed)`. -/
theorem dispatch_down_move_longitude (s : MouseController) (x1 x2 : ℝ)
    (h : s.isMouseEnabled = true) :
    ((s.dispatchEvent (.down x1)).dispatchEvent (.move x2)).longitude
      = toRange (s.longitude + (x1 - x2) * s.mouseSpeed) := by
  unfold MouseController.dispatchEvent MouseController.handleEvent
    MouseController.onMouseDown MouseController.onMouseMove MouseController.setLongitude
  simp only [h, if_true, Option.getD_some]
  simp only [toRange_idem]
  congr 1
  ring

/-- After a pointer-up, a further pointer-move leaves the longitude
unchanged, whether or not the controller is enabled. -/
theorem dispatch_up_move_noop (s : MouseController) (z : ℝ) :
    ((s.dispatchEvent .up).dispatchEvent (.move z)).longitude = s.longitude := by
  unfold MouseController.dispatchEvent MouseController.handleEvent
    MouseController.onMouseUp MouseController.onMouseMove
  cases hb : s.isMouseEnabled <;> simp [hb]

/-- Claim C2: the angle normalizer `toRange` always returns a value in
`(-π, π]`, is idempotent, and is `2π`-periodic for every integer shift,
including negative inputs and inputs many periods away. -/
theorem C2_toRange_range_idem_periodic (x : ℝ) (n : ℤ) :
    toRange x ∈ Set.Ioc (-π) π ∧ toRange (toRange x) = toRange x ∧
      toRange (x + 2 * π * (n : ℝ)) = toRange x :=
  ⟨toRange_mem_Ioc x, toRange_idem x, toRange_add_int_mul x n⟩

/-- Claim C3 (as frozen) is false: with `enabled = true`, `speed = 0.001`,
and starting longitude `0`, a down-event at `x = 100` followed by a
move-event at `x = 80` leaves the longitude at `+1/50 = +0.02`, not at the
decreased value `-0.02`: the code runs `longitude -= (80 - 100) * 0.001`,
which adds `0.02`. -/
theorem C3_counterexample :
    (((⟨true, 0, 1/1000, false, none⟩ : MouseController).dispatchEvent
          (.down 100)).dispatchEvent (.move 80)).longitude = 1/50 ∧
      (1/50 : ℝ) ≠ -(1/50) := by
  constructor
  · have h := dispatch_down_move_longitude ⟨true, 0, 1/1000, false, none⟩ 100 80 rfl
    rw [h]
    have harg : (0 : ℝ) + (100 - 80) * (1/1000) = 1/50 := by norm_num
    rw [harg, toRange_eq_self one_div_fifty_mem_Ioc]
  · norm_num

/-- Claim C3 (amended): with the controller enabled, a down-event at `x1`
followed by a move-event at `x2` INCREASES the longitude by
`(x1 - x2) * speed` before normalization (for `x1 = 100`, `x2 = 80`,
`speed = 0.001` that is `+0.02`), and after a subsequent up-event further
move-events leave the longitude unchanged. -/
theorem C3_pointer_drag (s : MouseController) (x1 x2 : ℝ)
    (h : s.isMouseEnabled = true) :
    ((s.dispatchEvent (.down x1)).dispatchEvent (.move x2)).longitude
        = toRange (s.longitude + (x1 - x2) * s.mouseSpeed) ∧
      ∀ z : ℝ,
        ((((s.dispatchEvent (.down x1)).dispatchEvent (.move x2)).dispatchEvent
              .up).dispatchEvent (.move z)).longitude
          = ((s.dispatchEvent (.down x1)).dispatchEvent (.move x2)).longitude :=
  ⟨dispatch_down_move_longitude s x1 x2 h, fun z => dispatch_up_move_noop _ z⟩

/-- Witness for claim C3's theorem at the scenario's concrete inputs. -/
theorem C3_pointer_drag_witness :
    (((⟨true, 0, 1/1000, false, none⟩ : MouseController).dispatchEvent
          (.down 100)).dispatchEvent (.move 80)).longitude = 1/50 := by
  have h := C3_pointer_drag ⟨true, 0, 1/1000, false, none⟩ 100 80 rfl
  rw [h.1]
  have harg : (0 : ℝ) + (100 - 80) * (1/1000) = 1/50 := by norm_num
  rw [harg, toRange_eq_self one_div_fifty_mem_Ioc]

/-- Claim C4 (as frozen) is false: `SimpleController` stores assigned
longitudes raw.  After assigning `10`, reading gives `10`, which is neither
`toRange 10` nor inside `(-π, π]`. -/
theorem C4_counterexample :
    (SimpleController.assignLongitude ⟨0⟩ 10).longitude ≠ toRange 10 ∧
      (SimpleController.assignLongitude ⟨0⟩ 10).longitude ∉ Set.Ioc (-π) π := by
  have hval : (SimpleController.assignLongitude ⟨0⟩ 10).longitude = 10 := rfl
  have hmem := toRange_mem_Ioc 10
  rw [Set.mem_Ioc] at hmem
  have hpi : π < 3.15 := pi_lt_d2
  constructor
  · rw [hval]
    intro heq
    rw [← heq] at hmem
    linarith [hmem.2]
  · rw [hval, Set.mem_Ioc]
    push_neg
    intro _
    linarith

/-- Claim C4 (amended): assigning to `SimpleController.longitude` is a bare
field write with no normalization; reading back returns the assigned value
unchanged. -/
theorem C4_assign_stores_raw (s : SimpleController) (x : ℝ) :
    (SimpleController.assignLongitude s x).longitude = x := rfl

/-- Claim C5 (as frozen) is false: disabling the controller mid-drag does
not clear `isPressed`/`prevPosition`, so after re-enabling, a move-event
without any new down-event still rotates the panorama.  Starting pressed at
`prevPosition = 100`, longitude `0`: disable, re-enable, move to `80`
changes the longitude to `1/50 ≠ 0`; and disabling left `isPressed` true. -/
theorem C5_counterexample :
    ((((⟨true, 0, 1/1000, true, some 100⟩ : MouseController).setIsMouseEnabled
            false).setIsMouseEnabled true).dispatchEvent (.move 80)).longitude = 1/50 ∧
      (1/50 : ℝ) ≠ 0 ∧
      ((⟨true, 0, 1/1000, true, some 100⟩ : MouseController).setIsMouseEnabled
          false).isPressed = true := by
  refine ⟨?_, by norm_num, rfl⟩
  show (MouseController.dispatchEvent ⟨true, 0, 1/1000, true, some 100⟩ (.move 80)).longitude
      = 1/50
  unfold MouseController.dispatchEvent MouseController.handleEvent
    MouseController.onMouseMove MouseController.setLongitude
  simp only [if_true, Option.getD_some]
  simp only [toRange_idem]
  have harg : (0 : ℝ) - (80 - 100) * (1/1000) = 1/50 := by norm_num
  rw [harg, toRange_eq_self one_div_fifty_mem_Ioc]

/-- Claim C5 (amended): the `isMouseEnabled` setter only stores the flag and
attaches/detaches the listeners; it leaves `isPressed`, `prevPosition` and
the longitude untouched, so a drag that was mid-flight when disabled resumes
on re-enable. -/
theorem C5_setEnabled_only_toggles_flag (s : MouseController) (b : Bool) :
    (s.setIsMouseEnabled b).isMouseEnabled = b ∧
      (s.setIsMouseEnabled b).isPressed = s.isPressed ∧
      (s.setIsMouseEnabled b).prevPosition = s.prevPosition ∧
      (s.setIsMouseEnabled b).longitude = s.longitude :=
  ⟨rfl, rfl, rfl, rfl⟩

/-- Claim C10: `clearLabels` and `addLabels` modify only the label
collection; longitude, the geometry parameters, `repeatCount`, and the
animating/loading flags are untouched, and `addLabels` appends the given
labels after the existing ones in order. -/
theorem C10_label_ops_frame (s : ViewerState) (ls : List Label) :
    (s.clearLabels.labels = [] ∧
      s.clearLabels.longitude = s.longitude ∧
      s.clearLabels.cylinderRadius = s.cylinderRadius ∧
      s.clearLabels.cylinderHeight = s.cylinderHeight ∧
      s.clearLabels.cameraRadius = s.cameraRadius ∧
      s.clearLabels.horizontalFov = s.horizontalFov ∧
      s.clearLabels.repeatCount = s.repeatCount ∧
      s.clearLabels.isAnimating = s.isAnimating ∧
      s.clearLabels.isLoadingImage = s.isLoadingImage) ∧
    ((s.addLabels ls).labels = s.labels ++ ls ∧
      (s.addLabels ls).longitude = s.longitude ∧
      (s.addLabels ls).cylinderRadius = s.cylinderRadius ∧
      (s.addLabels ls).cylinderHeight = s.cylinderHeight ∧
      (s.addLabels ls).cameraRadius = s.cameraRadius ∧
      (s.addLabels ls).horizontalFov = s.horizontalFov ∧
      (s.addLabels ls).repeatCount = s.repeatCount ∧
      (s.addLabels ls).isAnimating = s.isAnimating ∧
      (s.addLabels ls).isLoadingImage = s.isLoadingImage) :=
  ⟨⟨rfl, rfl, rfl, rfl, rfl, rfl, rfl, rfl, rfl⟩,
   ⟨rfl, rfl, rfl, rfl, rfl, rfl, rfl, rfl, rfl⟩⟩

/-- Claim C6 fails on the code: after every successful image load the
animation loop is running, regardless of whether it was running when
`setImage` was called — `onTextureLoaded` calls `startAnimationLoop`
unconditionally, making the saved `isAnimating` guard in `loadImage` dead
code.  This theorem evaluates the load path: the final animating state is
`true` for every starting state, including stopped ones. -/
theorem C6_successful_load_always_animating (env : Env) (s : ViewerState)
    (l : ℝ) (ls : List Label) :
    (ViewerState.setImage env s l ls true).isAnimating = true := by
  unfold ViewerState.setImage ViewerState.loadImage ViewerState.onTextureLoaded
    ViewerState.update ViewerState.startAnimationLoop ViewerState.stopAnimationLoop
    ViewerState.clearLabels ViewerState.addLabels
  cases s.isAnimating <;> simp

/-- Claim C7 (as frozen) is false: `loadImage` registers no error callback
with the texture loader, so on a failed load the completion callback never
runs: `isLoadingImage` remains `true` (it is NOT cleared), the animation
loop stays suspended, and no failure is surfaced.  Concrete run from a
`Ready`, animating, non-loading state. -/
theorem C7_counterexample :
    (ViewerState.setImage ⟨800, 600, 1024, 512⟩
        ⟨0, [], true, false, 11/10, 4/3, 1, 1, 1, 0, 1⟩ 1 [] false).isLoadingImage = true ∧
      (ViewerState.setImage ⟨800, 600, 1024, 512⟩
          ⟨0, [], true, false, 11/10, 4/3, 1, 1, 1, 0, 1⟩ 1 [] false).isAnimating = false :=
  ⟨rfl, rfl⟩

/-- Claim C7 (amended): when the image load fails, the labels and longitude
(and all geometry fields) do remain at their pre-request values, but the
lifecycle does not revert: the `isLoadingImage` flag remains set forever,
the animation loop remains suspended, and no failure is surfaced to the
caller (the loader is given no error callback). -/
theorem C7_failure_leaves_loading_flag_set (env : Env) (s : ViewerState)
    (l : ℝ) (ls : List Label) :
    ViewerState.setImage env s l ls false
      = { s with isLoadingImage := true, isAnimating := false } := rfl

/-- For a vertical FOV interior to `(0, π)`, `tan (fov / 2)` is positive. -/
theorem tan_half_fov_pos {fov : ℝ} (h0 : 0 < fov) (hpi : fov < π) :
    0 < Real.tan (fov / 2) :=
  Real.tan_pos_of_pos_of_lt_pi_div_two (by linarith) (by linarith)

/-- For `k > 1` and positive aspect ratio, the adjusted distortion
`1 + (k - 1) / a / a` exceeds `1`. -/
theorem distortionPrime_gt_one {k a : ℝ} (ha : 0 < a) (hk : 1 < k) :
    1 < distortionPrime k a := by
  unfold distortionPrime
  have h : 0 < (k - 1) / a / a := div_pos (div_pos (by linarith) ha) ha
  linarith

/-- For valid inputs with `k > 1`, the intermediate `d` is positive. -/
theorem dOf_pos {fov a k : ℝ} (h0 : 0 < fov) (hpi : fov < π) (ha : 0 < a)
    (hk : 1 < k) : 0 < dOf fov a k := by
  have ht := tan_half_fov_pos h0 hpi
  have hdp := distortionPrime_gt_one ha hk
  have hlt : 1 / distortionPrime k a < 1 := by
    rw [div_lt_one (by linarith)]
    exact hdp
  unfold dOf diffOf DEFAULT_H
  apply mul_pos
  · positivity
  · linarith

/-- For valid inputs with `k > 1`, the computed cylinder radius is
positive. -/
theorem cylinderRadiusOf_pos {fov a k : ℝ} (h0 : 0 < fov) (hpi : fov < π)
    (ha : 0 < a) (hk : 1 < k) : 0 < cylinderRadiusOf fov a k := by
  have hd := dOf_pos h0 hpi ha hk
  unfold cylinderRadiusOf
  apply div_pos
  · nlinarith [sq_nonneg (DEFAULT_H / 2 / distortionPrime k a / a)]
  · linarith

/-- `tan (π / 2 / 2) = 1`. -/
theorem tan_quarter_pi_arg : Real.tan (π / 2 / 2) = 1 := by
  rw [show (π / 2 / 2 : ℝ) = π / 4 by ring]
  exact Real.tan_pi_div_four

/-- Claim C1 (as frozen) is false at the valid input
`fov = π/2, aspectRatio = 1, k = 1`: there `d = 0` and the formula for `R`
divides by zero (`R` is not positive; in JavaScript it is `Infinity`, hence
not finite), and at the valid input `k = 2` the camera radius
`r = R - diff = -1/4` is negative. -/
theorem C1_counterexample :
    (calculateSceneParameters (π / 2) 1 1).cylinderRadius = 0 ∧
      (calculateSceneParameters (π / 2) 1 2).cameraRadius = -(1/4) := by
  constructor
  · show cylinderRadiusOf (π / 2) 1 1 = 0
    unfold cylinderRadiusOf dOf diffOf distortionPrime DEFAULT_H
    rw [tan_quarter_pi_arg]
    norm_num
  · show cameraRadiusOf (π / 2) 1 2 = -(1/4)
    unfold cameraRadiusOf cylinderRadiusOf dOf diffOf distortionPrime DEFAULT_H
    rw [tan_quarter_pi_arg]
    norm_num

/-- Claim C1 (amended): for valid inputs with strict distortion `k > 1`
(`aspectRatio > 0`, `0 < verticalFov < π`), the computed cylinder radius `R`
is positive (and, being a real number, finite); at `k = 1` exactly the `R`
formula divides by zero, and the camera radius `r` can be negative. -/
theorem C1_cylinderRadius_pos (fov a k : ℝ) (h0 : 0 < fov) (hpi : fov < π)
    (ha : 0 < a) (hk : 1 < k) :
    0 < (calculateSceneParameters fov a k).cylinderRadius :=
  cylinderRadiusOf_pos h0 hpi ha hk

/-- Witness for claim C1's theorem at `fov = π/2`, `a = 1`, `k = 2`. -/
theorem C1_cylinderRadius_pos_witness :
    0 < (calculateSceneParameters (π / 2) 1 2).cylinderRadius :=
  C1_cylinderRadius_pos (π / 2) 1 2 (by linarith [pi_pos]) (by linarith [pi_pos])
    one_pos one_lt_two

/-- The visibility gate of `updateLabelPositions` unfolded: the display is
`block` exactly when `|delta|` does not exceed half the horizontal FOV. -/
theorem labelDisplayBlock_iff (s : ViewerState) (lab : Label) :
    labelDisplayBlock s lab = true ↔ |labelDelta s lab| ≤ s.horizontalFov / 2 := by
  unfold labelDisplayBlock
  split
  · rename_i h
    simp only [Bool.false_eq_true, false_iff, not_le]
    exact h
  · rename_i h
    simp only [true_iff]
    exact not_lt.mp h

/-- Claim C8: a label is marked visible iff `|δ| ≤ horizontalFov / 2` with
`δ = toRange (angularX · 2π - toRange longitude)`; in particular `δ = 0` is
visible whenever the horizontal FOV is non-negative,
`|δ| = horizontalFov/2 + ε` is hidden, and `|δ| = horizontalFov/2 - ε` is
visible, for `ε > 0`. -/
theorem C8_label_visibility (s : ViewerState) (lab : Label) (ε : ℝ) :
    (labelDisplayBlock s lab = true ↔ |labelDelta s lab| ≤ s.horizontalFov / 2) ∧
      (labelDelta s lab = 0 → 0 ≤ s.horizontalFov → labelDisplayBlock s lab = true) ∧
      (0 < ε → |labelDelta s lab| = s.horizontalFov / 2 + ε →
        labelDisplayBlock s lab = false) ∧
      (0 < ε → |labelDelta s lab| = s.horizontalFov / 2 - ε →
        labelDisplayBlock s lab = true) := by
  refine ⟨labelDisplayBlock_iff s lab, ?_, ?_, ?_⟩
  · intro h0 hfov
    rw [labelDisplayBlock_iff, h0, abs_zero]
    linarith
  · intro hε habs
    cases hb : labelDisplayBlock s lab with
    | false => rfl
    | true =>
      have := (labelDisplayBlock_iff s lab).mp hb
      linarith [habs ▸ this]
  · intro hε habs
    rw [labelDisplayBlock_iff, habs]
    linarith

/-- Witness for claim C8's theorem: a label at bearing `0` with the view at
longitude `0` (`δ = 0`) and horizontal FOV `π` is visible. -/
theorem C8_label_visibility_witness :
    labelDisplayBlock ⟨0, [], false, false, 11/10, 1, π, 1, 1, 0, 1⟩ ⟨0, 0⟩ = true := by
  have h0 : toRange (0 : ℝ) = 0 :=
    toRange_eq_self ⟨by linarith [pi_pos], pi_pos.le⟩
  have hδ : labelDelta ⟨0, [], false, false, 11/10, 1, π, 1, 1, 0, 1⟩ ⟨0, 0⟩ = 0 := by
    unfold labelDelta
    simp only [zero_mul, h0, sub_zero]
  exact (C8_label_visibility ⟨0, [], false, false, 11/10, 1, π, 1, 1, 0, 1⟩ ⟨0, 0⟩ 1).2.1
    hδ pi_pos.le

/-- At aspect ratio `1` the cylinder radius formula collapses to the closed
form `((k-1)² + t²) / (4·t·k·(k-1))` with `t = tan (fov/2)`. -/
theorem cylinderRadiusOf_aspect_one {fov k t : ℝ} (ht : Real.tan (fov / 2) = t)
    (ht0 : 0 < t) (hk : 1 < k) :
    cylinderRadiusOf fov 1 k = ((k - 1) ^ 2 + t ^ 2) / (4 * t * k * (k - 1)) := by
  have hk0 : (0:ℝ) < k := by linarith
  have hkne : (k:ℝ) ≠ 0 := ne_of_gt hk0
  have hk1ne : k - 1 ≠ 0 := by intro h; rw [sub_eq_zero] at h; rw [h] at hk; linarith
  have htne : t ≠ 0 := ne_of_gt ht0
  have hdp : distortionPrime k 1 = k := by
    unfold distortionPrime
    ring
  have hd : dOf fov 1 k = (k - 1) / (2 * t * k) := by
    unfold dOf diffOf DEFAULT_H
    rw [ht, hdp]
    field_simp
  have hc : DEFAULT_H / 2 / distortionPrime k 1 / 1 = 1 / (2 * k) := by
    rw [hdp]
    unfold DEFAULT_H
    field_simp
  unfold cylinderRadiusOf
  rw [hd, hc]
  rw [div_eq_div_iff (by positivity) (by positivity)]
  field_simp
  ring

/-- `tan (DEFAULT_FOV / 2)` is bounded below by `0.479` (since
`tan x > x` on `(0, π/2)` and `π > 3.1415`). -/
theorem tan_default_half_gt : (479/1000 : ℝ) < Real.tan (DEFAULT_FOV / 2) := by
  have hhalf : DEFAULT_FOV / 2 = 55 * π / 360 := by
    unfold DEFAULT_FOV
    ring
  have hpos : (0:ℝ) < 55 * π / 360 := by positivity
  have hlt : (55 * π / 360 : ℝ) < π / 2 := by linarith [pi_pos]
  have htlb : 55 * π / 360 < Real.tan (55 * π / 360) := Real.lt_tan hpos hlt
  rw [hhalf]
  nlinarith [pi_gt_d4]

/-- At the default 55° FOV and aspect ratio `1`, the cylinder radius is
strictly DECREASING in the distortion coefficient on `(1, 1.7]`. -/
theorem cylinderRadiusOf_decreasing_55 {k1 k2 : ℝ} (h1 : 1 < k1) (h12 : k1 < k2)
    (h2 : k2 ≤ 17/10) :
    cylinderRadiusOf DEFAULT_FOV 1 k2 < cylinderRadiusOf DEFAULT_FOV 1 k1 := by
  set t := Real.tan (DEFAULT_FOV / 2) with htdef
  have ht479 : (479/1000 : ℝ) < t := tan_default_half_gt
  have ht0 : 0 < t := by linarith
  have hR1 := cylinderRadiusOf_aspect_one htdef.symm ht0 h1
  have hR2 := cylinderRadiusOf_aspect_one htdef.symm ht0 (by linarith : 1 < k2)
  rw [hR1, hR2]
  have hd1 : (0:ℝ) < 4 * t * k1 * (k1 - 1) := by nlinarith
  have hd2 : (0:ℝ) < 4 * t * k2 * (k2 - 1) := by nlinarith
  rw [div_lt_div_iff₀ hd2 hd1]
  have ht2 : (229441/1000000 : ℝ) < t^2 := by nlinarith
  have hinner : 0 < t^2 * (k1 + k2 - 1) - (k1 - 1) * (k2 - 1) := by
    nlinarith [mul_nonneg (by linarith : (0:ℝ) ≤ k1 - 1) (by linarith : (0:ℝ) ≤ 17/10 - k2),
      mul_nonneg (by linarith : (0:ℝ) ≤ t^2 - 229441/1000000)
        (by linarith : (0:ℝ) ≤ k1 + k2 - 1)]
  nlinarith [mul_pos (mul_pos (by linarith : (0:ℝ) < 4 * t)
    (by linarith : (0:ℝ) < k2 - k1)) hinner]

/-- Claim C9 (as frozen) is false at 55° FOV, aspect ratio `1`, and the
in-range pair `k1 = 1.1 < k2 = 1.2`: the cylinder radius does not increase
with the distortion there — it strictly decreases. -/
theorem C9_counterexample :
    ¬ ((calculateSceneParameters DEFAULT_FOV 1 (11/10)).cylinderRadius
        < (calculateSceneParameters DEFAULT_FOV 1 (6/5)).cylinderRadius) :=
  lt_asymm (cylinderRadiusOf_decreasing_55 (by norm_num) (by norm_num) (by norm_num))

/-- Claim C9 (amended): at 55° vertical FOV and aspect ratio `1`, increasing
the distortion coefficient strictly DECREASES the computed cylinder radius
for `1 < k1 < k2 ≤ 1.7` (evaluated by the exact formulas); in particular the
claimed strict increase fails throughout that range. -/
theorem C9_radius_strictly_decreasing (k1 k2 : ℝ) (h1 : 1 < k1) (h12 : k1 < k2)
    (h2 : k2 ≤ 17/10) :
    (calculateSceneParameters DEFAULT_FOV 1 k2).cylinderRadius
      < (calculateSceneParameters DEFAULT_FOV 1 k1).cylinderRadius :=
  cylinderRadiusOf_decreasing_55 h1 h12 h2

/-- Witness for claim C9's theorem at `k1 = 1.1`, `k2 = 1.2`. -/
theorem C9_radius_strictly_decreasing_witness :
    (calculateSceneParameters DEFAULT_FOV 1 (6/5)).cylinderRadius
      < (calculateSceneParameters DEFAULT_FOV 1 (11/10)).cylinderRadius :=
  C9_radius_strictly_decreasing (11/10) (6/5) (by norm_num) (by norm_num) (by norm_num)
